import Mathlib

/-!
# Verification of the GitHub-random core services

Shallow embedding of `src/services/githubService.ts`:

* `Repository` — the canonical record shape (TypeScript interface `Repository`).
* `ApiItem` — one entry of the remote search API's `items` array, with the
  fields the service reads.  The GitHub API may return `null` for
  `description` and `language`, so those are `Option String`; `null` is `none`.
* `mapItem` — the per-item normalisation inside `searchRepositories`.
* `searchRepositories` — the search client, with the HTTP transport passed in
  explicitly as a function from URL to response.
* `loadLanguages` — the catalog loader, with the fetch outcome passed in
  explicitly and the process-wide `AVAILABLE_LANGUAGES` object threaded as an
  association list in insertion order (JavaScript objects preserve string-key
  insertion order).
* `getRandomRepository` — the random selector, with the value produced by
  `Math.random()` passed in explicitly as a rational in `[0, 1)`.
-/

namespace GithubService

/-- One entry of the remote API's `items` array, restricted to the fields the
service reads.  `description` and `language` are nullable in the source API,
hence `Option String` (`none` = JSON `null`). -/
structure ApiItem where
  id : Int
  name : String
  html_url : String
  description : Option String
  stargazers_count : Int
  language : Option String
  forks_count : Int
deriving DecidableEq, Repr

/-- The canonical record shape (TypeScript `interface Repository`).  The
interface declares `description: string` and `language: string`, but the
mapping in `searchRepositories` copies the API values verbatim through an
`any`-typed binder, so at runtime a `null` can inhabit either field; the
embedding records the runtime possibility as `Option String`. -/
structure Repository where
  id : Int
  name : String
  html_url : String
  description : Option String
  stars : Int
  language : Option String
  forks_count : Int
deriving DecidableEq, Repr

/-- The arrow function inside `data.items.map(...)` in `searchRepositories`:
each field is copied verbatim; the API's `stargazers_count` is renamed to
`stars`. -/
def mapItem (item : ApiItem) : Repository :=
  { id := item.id
    name := item.name
    html_url := item.html_url
    description := item.description
    stars := item.stargazers_count
    language := item.language
    forks_count := item.forks_count }

/-- Predicate `response.ok` of the Fetch API: status in the range 200–299. -/
def statusOk (status : Nat) : Bool :=
  200 ≤ status && status < 300

/-- An HTTP response as the service observes it: a status code and a body.
`body = some items` models a JSON body whose `items` field is an array of
well-formed entries; `body = none` models a body whose `items` field is
absent or not an array (in which case `data.items.map` throws a TypeError
in the source). -/
structure HttpResponse where
  status : Nat
  body : Option (List ApiItem)
deriving DecidableEq

/-- The error outcomes of `searchRepositories`:
`fetchFailed` is the `throw new Error('Error fetching repositories')` on a
non-ok status; `typeFault` is the unguarded TypeError raised by
`data.items.map` when `items` is absent or not an array. -/
inductive SearchError where
  | fetchFailed
  | typeFault
deriving DecidableEq, Repr

/-- Percent-encoding: JavaScript's `encodeURIComponent` leaves the unreserved
characters `A–Z a–z 0–9 - _ . ! ~ * ' ( )` intact and percent-encodes every
other character byte-wise. -/
def isUnreservedChar (c : Char) : Bool :=
  c.isAlpha || c.isDigit || c = '-' || c = '_' || c = '.' || c = '!' ||
    c = '~' || c = '*' || c = Char.ofNat 39 || c = '(' || c = ')'

/-- Upper-case hexadecimal digit for a value below 16. -/
def hexDigit (n : Nat) : Char :=
  if n < 10 then Char.ofNat (48 + n) else Char.ofNat (55 + n)

/-- Escape `%XX` of one byte. -/
def percentByte (b : Nat) : String :=
  String.mk ['%', hexDigit (b / 16), hexDigit (b % 16)]

/-- UTF-8 bytes of a code point. -/
def utf8Bytes (n : Nat) : List Nat :=
  if n < 128 then [n]
  else if n < 2048 then [192 + n / 64, 128 + n % 64]
  else if n < 65536 then [224 + n / 4096, 128 + (n / 64) % 64, 128 + n % 64]
  else [240 + n / 262144, 128 + (n / 4096) % 64, 128 + (n / 64) % 64, 128 + n % 64]

/-- JavaScript's `encodeURIComponent`. -/
def encodeURIComponent (s : String) : String :=
  String.join (s.toList.map fun c =>
    if isUnreservedChar c then String.mk [c]
    else String.join ((utf8Bytes c.toNat).map percentByte))

/-- The URL built by `searchRepositories` from the template string: the query
`language:<language>` is percent-encoded, sort is by stars descending, and
`per_page` is the caller-supplied page size, interpolated as given. -/
def searchUrl (language : String) (perPage : Nat) : String :=
  "https://api.github.com/search/repositories?q=" ++
    encodeURIComponent ("language:" ++ language) ++
    "&sort=stars&order=desc&per_page=" ++ toString perPage

/-- Handling of the response inside `searchRepositories`: a non-ok status
throws the fetch error before the body is read; otherwise `data.items.map`
either produces the record list or faults when `items` is missing/non-array. -/
def handleSearchResponse (response : HttpResponse) :
    Except SearchError (List Repository) :=
  if ¬ statusOk response.status then .error .fetchFailed
  else
    match response.body with
    | none => .error .typeFault
    | some items => .ok (items.map mapItem)

/-- Function `searchRepositories(language, perPage)`: builds the search URL, issues the
single GET (the transport is the explicit `fetchFn` argument), and handles the
response. -/
def searchRepositories (fetchFn : String → HttpResponse) (language : String)
    (perPage : Nat) : Except SearchError (List Repository) :=
  handleSearchResponse (fetchFn (searchUrl language perPage))

/-- The TypeScript default parameter `perPage: number = 10`. -/
def defaultPerPage : Nat := 10

/-- Call `searchRepositories(language)` with the page-size argument omitted. -/
def searchRepositoriesDefault (fetchFn : String → HttpResponse)
    (language : String) : Except SearchError (List Repository) :=
  searchRepositories fetchFn language defaultPerPage

/-- One entry of `/languages.json`: a display label (`title`) and a query
identifier (`value`). -/
structure LangEntry where
  title : String
  value : String
deriving DecidableEq, Repr

/-- The outcome of `fetch('/languages.json')` as `loadLanguages` observes it:
the fetch may reject (resource unreachable), or deliver a response with a
status code and a body; `body = some entries` models a JSON array of
well-formed `{title, value}` objects, `body = none` models malformed content
(JSON parse failure, or a value on which `.reduce` faults). -/
inductive LangFetch where
  | unreachable
  | response (status : Nat) (body : Option (List LangEntry))
deriving DecidableEq

/-- Assignment `acc[item.value] = item.title` on a JavaScript object modelled
as an association list in insertion order: an existing key keeps its position
and is overwritten, a new key is appended. -/
def objInsert (acc : List (String × String)) (k v : String) :
    List (String × String) :=
  if acc.any (fun p => p.1 == k) then
    acc.map fun p => if p.1 == k then (k, v) else p
  else acc ++ [(k, v)]

/-- The `data.reduce(...)` in `loadLanguages`: folds the entry array into a
fresh `{value: title}` object. -/
def buildLanguages (entries : List LangEntry) : List (String × String) :=
  entries.foldl (fun acc e => objInsert acc e.value e.title) []

/-- Function `loadLanguages()`: the whole body sits in a `try`/`catch`, so a rejected
fetch, a non-ok status (the explicit `throw`) and malformed content are all
caught and only logged; `AVAILABLE_LANGUAGES` (threaded here as `catalog`) is
reassigned only on the success path, where the fresh object replaces the prior
value. -/
def loadLanguages (fetched : LangFetch) (catalog : List (String × String)) :
    List (String × String) :=
  match fetched with
  | .unreachable => catalog
  | .response status body =>
    if ¬ statusOk status then catalog
    else
      match body with
      | none => catalog
      | some entries => buildLanguages entries

/-- The failure cases of `loadLanguages`: resource unreachable, non-success
status, or malformed content. -/
def langLoadFails : LangFetch → Prop
  | .unreachable => True
  | .response status body => statusOk status = false ∨ body = none

instance : DecidablePred langLoadFails := by
  intro f
  cases f <;> simp [langLoadFails] <;> infer_instance

/-- Evaluation of `getRandomRepository(repos)` with the store made explicit: the result is
`repos[Math.floor(random * repos.length)]` (JavaScript out-of-bounds indexing
yields `undefined`, embedded as `none`), and the body contains no write, so
the store entry for `repos` after the call is the list itself.  `random` is
the value drawn from `Math.random()`, a rational in `[0, 1)`. -/
def getRandomRepositoryRun (repos : List Repository) (random : ℚ) :
    Option Repository × List Repository :=
  (repos.get? (Int.toNat ⌊random * (repos.length : ℚ)⌋), repos)

/-- The value `getRandomRepository(repos)` returns. -/
def getRandomRepository (repos : List Repository) (random : ℚ) :
    Option Repository :=
  (getRandomRepositoryRun repos random).1

/-- A concrete API item whose `description` is JSON `null`, as the GitHub
search API returns for a repository without a description. -/
def nullDescItem : ApiItem :=
  { id := 1
    name := "somerepo"
    html_url := "https://github.com/u/somerepo"
    description := none
    stargazers_count := 5
    language := some "Python"
    forks_count := 2 }

/-- A concrete, fully populated API item. -/
def sampleItem : ApiItem :=
  { id := 7
    name := "react"
    html_url := "https://github.com/facebook/react"
    description := some "A JavaScript library"
    stargazers_count := 200000
    language := some "JavaScript"
    forks_count := 45000 }

/-- A second concrete, fully populated API item. -/
def thirdItem : ApiItem :=
  { id := 9
    name := "flask"
    html_url := "https://github.com/pallets/flask"
    description := some "A micro web framework"
    stargazers_count := 70000
    language := some "Python"
    forks_count := 16000 }

/-- A concrete repository record used in witnesses. -/
def sampleRepo : Repository :=
  { id := 7
    name := "react"
    html_url := "https://github.com/facebook/react"
    description := some "A JavaScript library"
    stars := 200000
    language := some "JavaScript"
    forks_count := 45000 }

end GithubService

namespace GithubService

/-- Auxiliary: folding the catalog entries with JavaScript-object insertion,
starting from any accumulator whose keys avoid the entries' identifiers,
appends one `(identifier, label)` pair per entry in source order. -/
theorem foldl_objInsert (entries : List LangEntry) (acc : List (String × String))
    (hd : ∀ e ∈ entries, ∀ p ∈ acc, p.1 ≠ e.value)
    (hn : (entries.map LangEntry.value).Nodup) :
    entries.foldl (fun a e => objInsert a e.value e.title) acc
      = acc ++ entries.map (fun e => (e.value, e.title)) := by
  induction entries generalizing acc with
  | nil => simp
  | cons e rest ih =>
    simp only [List.foldl_cons, List.map_cons]
    have hnotmem : acc.any (fun p => p.1 == e.value) = false := by
      simp only [List.any_eq_false, beq_iff_eq]
      intro p hp
      exact hd e (by simp) p hp
    rw [objInsert, hnotmem]
    simp only [Bool.false_eq_true, if_false]
    rw [ih (acc ++ [(e.value, e.title)]) ?_ ?_]
    · simp
    · intro e' he' p hp
      rcases List.mem_append.mp hp with hp | hp
      · exact hd e' (List.mem_cons_of_mem _ he') p hp
      · have hpe : p = (e.value, e.title) := by simpa using hp
        subst hpe
        simp only [List.map_cons, List.nodup_cons] at hn
        intro hcontra
        apply hn.1
        rw [show e.value = e'.value from hcontra]
        exact List.mem_map_of_mem LangEntry.value he'
    · simp only [List.map_cons, List.nodup_cons] at hn
      exact hn.2

/-- C2: for every non-empty list of repository records and every value of the
random source in `[0, 1)`, `getRandomRepository` returns an element of the
input list — the record itself, not a copy — and on a list of length 1 it
always returns that single element. -/
theorem C2_pickOne_member (repos : List Repository) (q : ℚ)
    (hne : repos ≠ []) (h0 : 0 ≤ q) (h1 : q < 1) :
    ∃ r, getRandomRepository repos q = some r ∧ r ∈ repos ∧
      ∀ x, repos = [x] → r = x := by
  have hlen : 0 < repos.length := List.length_pos.mpr hne
  have hflt : ⌊q * (repos.length : ℚ)⌋ < (repos.length : ℤ) := by
    apply Int.floor_lt.mpr
    calc q * (repos.length : ℚ) < 1 * (repos.length : ℚ) :=
          mul_lt_mul_of_pos_right h1 (by exact_mod_cast hlen)
      _ = ((repos.length : ℤ) : ℚ) := by push_cast; ring
  have hilt : Int.toNat ⌊q * (repos.length : ℚ)⌋ < repos.length := by omega
  refine ⟨repos.get ⟨Int.toNat ⌊q * (repos.length : ℚ)⌋, hilt⟩, ?_, ?_, ?_⟩
  · simp [getRandomRepository, getRandomRepositoryRun, List.get?_eq_get hilt]
  · exact List.get_mem _ _ _
  · intro x hx
    subst hx
    exact List.get_singleton x _

/-- Witness for C2 at the singleton list `[sampleRepo]` and random value `0`. -/
theorem C2_pickOne_member_witness :
    ([sampleRepo] : List Repository) ≠ [] ∧ (0 : ℚ) ≤ 0 ∧ (0 : ℚ) < 1 ∧
      ∃ r, getRandomRepository [sampleRepo] 0 = some r ∧ r ∈ [sampleRepo] ∧
        ∀ x, [sampleRepo] = [x] → r = x :=
  ⟨by simp, le_refl 0, by norm_num,
    C2_pickOne_member [sampleRepo] 0 (by simp) (le_refl 0) (by norm_num)⟩

/-- C9: `getRandomRepository` does not mutate its input — the store entry for
`repos` after the call is the input list itself — and the record it returns is
an element of the input list, not a copy with altered fields. -/
theorem C9_pickOne_pure (repos : List Repository) (q : ℚ) :
    (getRandomRepositoryRun repos q).2 = repos ∧
      ∀ r, (getRandomRepositoryRun repos q).1 = some r → r ∈ repos := by
  refine ⟨rfl, fun r hr => ?_⟩
  simp only [getRandomRepositoryRun] at hr
  exact List.get?_mem hr

/-- Witness for C9: the returned-record clause applied at a concrete list and
random value. -/
theorem C9_pickOne_pure_witness :
    (getRandomRepositoryRun [sampleRepo] 0).2 = [sampleRepo] ∧
      sampleRepo ∈ [sampleRepo] :=
  ⟨(C9_pickOne_pure [sampleRepo] 0).1,
    (C9_pickOne_pure [sampleRepo] 0).2 sampleRepo (by
      simp [getRandomRepositoryRun])⟩

/-- C10: on the empty list, the index `floor(random * 0)` computed by
`getRandomRepository` is `0`, and the unguarded access at position 0 of the
empty array yields no repository record (`undefined` in the source, `none`
here) — no element is returned and no error condition is raised. -/
theorem C10_pickOne_empty (q : ℚ) :
    Int.toNat ⌊q * ((([] : List Repository)).length : ℚ)⌋ = 0 ∧
      getRandomRepository [] q = none := by
  constructor
  · simp
  · simp [getRandomRepository, getRandomRepositoryRun]

/-- C3: on a non-success HTTP status, `searchRepositories` fails with the
fetch error and produces no repository records; the response body is never
consulted — the outcome is identical for every body. -/
theorem C3_non_success_fails (status : Nat) (body body2 : Option (List ApiItem))
    (language : String) (perPage : Nat) (h : statusOk status = false) :
    searchRepositories (fun _ => ⟨status, body⟩) language perPage
        = .error .fetchFailed ∧
      searchRepositories (fun _ => ⟨status, body⟩) language perPage
        = searchRepositories (fun _ => ⟨status, body2⟩) language perPage := by
  constructor <;> simp [searchRepositories, handleSearchResponse, h]

/-- Witness for C3 at a canned 403 response: the search fails with the fetch
error whether the body holds items or not. -/
theorem C3_non_success_fails_witness :
    statusOk 403 = false ∧
      (searchRepositories (fun _ => ⟨403, some [sampleItem]⟩) "python" 10
          = .error .fetchFailed ∧
        searchRepositories (fun _ => ⟨403, some [sampleItem]⟩) "python" 10
          = searchRepositories (fun _ => ⟨403, none⟩) "python" 10) :=
  ⟨by decide,
    C3_non_success_fails 403 (some [sampleItem]) none "python" 10 (by decide)⟩

/-- C6: on a successful response whose `items` list holds `n` well-formed
entries, `searchRepositories` returns exactly `n` records, position-for
position the normalisation of the source items (no deduplication, sorting or
filtering), with each record's `stars` equal to the source entry's
`stargazers_count`. -/
theorem C6_success_mapping (status : Nat) (items : List ApiItem)
    (language : String) (perPage : Nat) (h : statusOk status = true) :
    ∃ records,
      searchRepositories (fun _ => ⟨status, some items⟩) language perPage
          = .ok records ∧
        records.length = items.length ∧
        (∀ i, records.get? i = (items.get? i).map mapItem) ∧
        ∀ item : ApiItem, (mapItem item).stars = item.stargazers_count := by
  refine ⟨items.map mapItem, ?_, by simp, fun i => ?_, fun item => rfl⟩
  · simp [searchRepositories, handleSearchResponse, h]
  · simp [List.get?_map]

/-- Witness for C6 at a canned successful response with three items. -/
theorem C6_success_mapping_witness :
    statusOk 200 = true ∧
      ∃ records,
        searchRepositories
            (fun _ => ⟨200, some [sampleItem, nullDescItem, thirdItem]⟩)
            "python" 10 = .ok records ∧
          records.length = [sampleItem, nullDescItem, thirdItem].length ∧
          (∀ i, records.get? i
              = ([sampleItem, nullDescItem, thirdItem].get? i).map mapItem) ∧
          ∀ item : ApiItem, (mapItem item).stars = item.stargazers_count :=
  ⟨by decide,
    C6_success_mapping 200 [sampleItem, nullDescItem, thirdItem] "python" 10
      (by decide)⟩

/-- C7: on a successful HTTP status whose body lacks a well-formed `items`
list, `searchRepositories` does not fail with the fetch error but with the
unguarded type fault raised by mapping over a missing/non-array field. -/
theorem C7_malformed_items_fault (status : Nat) (language : String)
    (perPage : Nat) (h : statusOk status = true) :
    searchRepositories (fun _ => ⟨status, none⟩) language perPage
        = .error .typeFault ∧
      SearchError.typeFault ≠ SearchError.fetchFailed := by
  refine ⟨?_, by decide⟩
  simp [searchRepositories, handleSearchResponse, h]

/-- Witness for C7 at a canned 200 response without an `items` list. -/
theorem C7_malformed_items_fault_witness :
    statusOk 200 = true ∧
      (searchRepositories (fun _ => ⟨200, none⟩) "python" 10
          = .error .typeFault ∧
        SearchError.typeFault ≠ SearchError.fetchFailed) :=
  ⟨by decide, C7_malformed_items_fault 200 "python" 10 (by decide)⟩

/-- C8: the single GET request is issued at the fixed search endpoint with the
query `language:<identifier>` percent-encoded, the identifier passed through
verbatim (even when empty or containing reserved characters), sort-by-stars
descending, and the requested page size interpolated as given (default 10,
with no local cap applied above the API-side limit of 100); the search outcome
is determined by the transport's response at exactly that URL. -/
theorem C8_request_url (language : String) (perPage : Nat)
    (fetchFn : String → HttpResponse) :
    searchUrl language perPage
        = "https://api.github.com/search/repositories?q="
            ++ encodeURIComponent ("language:" ++ language)
            ++ "&sort=stars&order=desc&per_page=" ++ toString perPage ∧
      searchRepositories fetchFn language perPage
        = handleSearchResponse (fetchFn (searchUrl language perPage)) ∧
      searchRepositoriesDefault fetchFn language
        = searchRepositories fetchFn language 10 ∧
      searchUrl "python" 10
        = "https://api.github.com/search/repositories?q=language%3Apython&sort=stars&order=desc&per_page=10" ∧
      searchUrl "" 10
        = "https://api.github.com/search/repositories?q=language%3A&sort=stars&order=desc&per_page=10" ∧
      searchUrl "c++" 150
        = "https://api.github.com/search/repositories?q=language%3Ac%2B%2B&sort=stars&order=desc&per_page=150" := by
  exact ⟨rfl, rfl, rfl, by decide, by decide, by decide⟩

/-- C1 (the code violates the claim): `searchRepositories` copies the source
`description` verbatim, so when the API returns `null` the record's
description is left `none` — not normalized to an empty string or a "no
description" marker — although the `Repository` interface declares the field
as a plain string. -/
theorem C1_null_description_leaks :
    searchRepositories (fun _ => ⟨200, some [nullDescItem]⟩) "python" 10
        = .ok [{ id := 1
                 name := "somerepo"
                 html_url := "https://github.com/u/somerepo"
                 description := none
                 stars := 5
                 language := some "Python"
                 forks_count := 2 }] ∧
      (mapItem nullDescItem).description = none :=
  ⟨rfl, rfl⟩

/-- C4: every failing execution of `loadLanguages` (resource unreachable,
non-success status, malformed content) is caught inside the function and
leaves the catalog exactly in its previous state. -/
theorem C4_load_failure_preserves (fetched : LangFetch)
    (catalog : List (String × String)) (h : langLoadFails fetched) :
    loadLanguages fetched catalog = catalog := by
  cases fetched with
  | unreachable => rfl
  | response status body =>
    simp only [langLoadFails] at h
    rcases h with h | h
    · simp [loadLanguages, h]
    · subst h
      rcases Bool.eq_false_or_eq_true (statusOk status) with hs | hs <;>
        simp [loadLanguages, hs]

/-- Witness for C4: an unreachable resource leaves a concrete catalog (and in
particular the initially empty one) unchanged. -/
theorem C4_load_failure_preserves_witness :
    langLoadFails LangFetch.unreachable ∧
      loadLanguages LangFetch.unreachable [("javascript", "JavaScript")]
        = [("javascript", "JavaScript")] :=
  ⟨trivial,
    C4_load_failure_preserves LangFetch.unreachable
      [("javascript", "JavaScript")] trivial⟩

/-- C5: a successful load of a catalog resource whose entries have pairwise
distinct identifiers replaces any prior catalog with exactly one
identifier→label mapping per entry, in the source list's order. -/
theorem C5_load_success_populates (status : Nat) (entries : List LangEntry)
    (prior : List (String × String)) (h : statusOk status = true)
    (hu : (entries.map LangEntry.value).Nodup) :
    loadLanguages (.response status (some entries)) prior
      = entries.map fun e => (e.value, e.title) := by
  have hb : buildLanguages entries = entries.map fun e => (e.value, e.title) := by
    have := foldl_objInsert entries [] (by simp) hu
    simpa [buildLanguages] using this
  simp [loadLanguages, h, hb]

/-- Witness for C5 at the canned two-entry JavaScript/Python catalog, loaded
over a non-empty prior catalog. -/
theorem C5_load_success_populates_witness :
    statusOk 200 = true ∧
      (([⟨"JavaScript", "javascript"⟩, ⟨"Python", "python"⟩] : List LangEntry).map
          LangEntry.value).Nodup ∧
      loadLanguages
          (.response 200
            (some [⟨"JavaScript", "javascript"⟩, ⟨"Python", "python"⟩]))
          [("old", "Old")]
        = [("javascript", "JavaScript"), ("python", "Python")] :=
  ⟨by decide, by decide,
    C5_load_success_populates 200
      [⟨"JavaScript", "javascript"⟩, ⟨"Python", "python"⟩]
      [("old", "Old")] (by decide) (by decide)⟩

end GithubService
